import Mathlib

/-!
Verification of the DX12_Project frame-orchestration core (`D3D.cpp`,
`D3D.hpp` / `Shader` implementation) against its natural-language
specification.  The C++ methods are shallowly embedded as Lean functions
and event traces; machine integers are `Nat` with an explicit modulus
where overflow matters.
-/

set_option autoImplicit false

namespace DX12

/-- Modulus of the C++ `UINT64` type used for `m_fenceValue`. -/
def UINT64_MOD : Nat := 2 ^ 64

/-- `FRAME_BUFFERS` from `Utility.hpp` (swap-chain buffer count; the spec
fixes K = 2 and `D3D.hpp` declares `m_backBufferRenderTarget[FRAME_BUFFERS]`
with a 2-buffer ring). -/
def FRAME_BUFFERS : Nat := 2

/-- CPU-visible fence state of the graphics queue:
`fenceValue` is the member `m_fenceValue`, `completed` is the value the
GPU-side fence object reports via `GetCompletedValue()`. -/
structure FenceState where
  fenceValue : Nat
  completed : Nat
deriving DecidableEq

/-- Embedding of `D3D::WaitForPreviousFrame` (D3D.cpp:278-291).
The source signals the queue with the current `m_fenceValue`, increments
`m_fenceValue` (a `UINT64`, hence the modulus), and if
`GetCompletedValue() < fence` blocks on `SetEventOnCompletion` /
`WaitForSingleObject(INFINITE)` until the GPU has completed the signal.
The blocking wait is collapsed deterministically: the function returns
exactly when the fence's completed value has reached the signalled value,
so the post-state records `completed` raised to that value. -/
def waitForPreviousFrame (s : FenceState) : FenceState :=
  let fence := s.fenceValue
  let s1 : FenceState := { fenceValue := (s.fenceValue + 1) % UINT64_MOD, completed := s.completed }
  if s1.completed < fence then { s1 with completed := fence } else s1

/-- Fence state right after `D3D::CreateRenderTargetsAndFences`
(D3D.cpp:222-226): the fence object is created with initial value 0 and
`m_fenceValue = 1`. -/
def initialFence : FenceState := { fenceValue := 1, completed := 0 }

/-- State after `n` calls to `WaitForPreviousFrame` starting from
`initialFence`. -/
def fenceStateAfter (n : Nat) : FenceState :=
  waitForPreviousFrame^[n] initialFence

theorem fenceStateAfter_zero : fenceStateAfter 0 = initialFence := rfl

theorem fenceStateAfter_succ (n : Nat) :
    fenceStateAfter (n + 1) = waitForPreviousFrame (fenceStateAfter n) := by
  unfold fenceStateAfter
  rw [Function.iterate_succ_apply']

theorem fenceStateAfter_closed (n : Nat) (h : n + 1 < UINT64_MOD) :
    fenceStateAfter n = { fenceValue := n + 1, completed := n } := by
  induction n with
  | zero => rfl
  | succ k ih =>
    have hk : k + 1 < UINT64_MOD := Nat.lt_of_succ_lt (by omega)
    rw [fenceStateAfter_succ, ih hk]
    unfold waitForPreviousFrame
    simp only
    have hlt : k < k + 1 := Nat.lt_succ_self k
    rw [if_pos hlt]
    have hmod : (k + 1 + 1) % UINT64_MOD = k + 1 + 1 := Nat.mod_eq_of_lt (by omega)
    simp [hmod]

/-- C1: each call to `WaitForPreviousFrame` signals the fence with the
current counter value and increments the counter; the signalled values
starting from the initial counter value 1 are strictly increasing
(1, 2, 3, ...), and the completed value observed after the call returns
is at least the value signalled in that call.  Here
`(fenceStateAfter n).fenceValue` is the value signalled by the `n`-th call
(0-indexed) and `fenceStateAfter (n+1)` is the state after it returns. -/
theorem fence_wait_correct (n : Nat) (h : n + 2 < UINT64_MOD) :
    (fenceStateAfter n).fenceValue = n + 1 ∧
    (fenceStateAfter (n + 1)).fenceValue = (fenceStateAfter n).fenceValue + 1 ∧
    (fenceStateAfter (n + 1)).completed ≥ (fenceStateAfter n).fenceValue := by
  have h1 : n + 1 < UINT64_MOD := by omega
  have h2 : n + 1 + 1 < UINT64_MOD := by omega
  rw [fenceStateAfter_closed n h1, fenceStateAfter_closed (n + 1) h2]
  exact ⟨rfl, rfl, Nat.le_refl _⟩

/-- Witness for claim C1 at the first frame: the first call signals 1 and after
it returns the completed value is at least 1. -/
theorem fence_wait_correct_witness :
    (fenceStateAfter 0).fenceValue = 1 ∧
    (fenceStateAfter 1).fenceValue = (fenceStateAfter 0).fenceValue + 1 ∧
    (fenceStateAfter 1).completed ≥ (fenceStateAfter 0).fenceValue :=
  fence_wait_correct 0 (by decide)

/-- Events recorded/issued by the D3D frame methods, in source order.
`closeList` and `executeLists` are the two statements of
`D3D::ExecuteCommandList` (D3D.cpp:293-299); `present si fl` is
`m_swapChain->Present(si, fl)`; `fenceSignalWait` is a whole
`WaitForPreviousFrame` call (signal + increment + blocking wait). -/
inductive Ev where
  | resetAllocator
  | resetList
  | setRootSignature
  | setViewport
  | setScissor
  | barrierToRT
  | omSetRenderTargets
  | clearRTV
  | setTopology
  | setDescTable
  | bindBuffers
  | draw
  | barrierToPresent
  | closeList
  | executeLists
  | present (syncInterval : Nat) (flags : Nat)
  | fenceSignalWait
  | updateFrameIndex
  | closeFenceEvent
  | releaseTexture
  | releaseDevice
deriving DecidableEq

/-- Events of `D3D::BeginScene` (D3D.cpp:92-116), in statement order. -/
def beginSceneEvents : List Ev :=
  [Ev.resetAllocator, Ev.resetList, Ev.setRootSignature, Ev.setViewport,
   Ev.setScissor, Ev.barrierToRT, Ev.omSetRenderTargets, Ev.clearRTV]

/-- Events of the body of `D3D::Render` between `BeginScene` and
`EndScene` (D3D.cpp:83-87). -/
def renderBodyEvents : List Ev :=
  [Ev.setTopology, Ev.setDescTable, Ev.bindBuffers, Ev.draw]

/-- Events of `D3D::EndScene` (D3D.cpp:118-132), in statement order:
barrier back to present, `ExecuteCommandList` (close + execute),
`Present(0, 0)`, `WaitForPreviousFrame`, then
`m_frameIndex = m_swapChain->GetCurrentBackBufferIndex()`. -/
def endSceneEvents : List Ev :=
  [Ev.barrierToPresent, Ev.closeList, Ev.executeLists, Ev.present 0 0,
   Ev.fenceSignalWait, Ev.updateFrameIndex]

/-- Events of one `D3D::Render` call (D3D.cpp:79-90). -/
def renderEvents : List Ev := beginSceneEvents ++ renderBodyEvents ++ endSceneEvents

/-- Final events of `D3D::Initialize` (D3D.cpp:75-76): the setup command
list is executed and then waited on before the first frame. -/
def setupTailEvents : List Ev := [Ev.closeList, Ev.executeLists, Ev.fenceSignalWait]

/-- Events of `D3D::ShutDown` (D3D.cpp:134-142), in statement order. -/
def shutDownEvents : List Ev :=
  [Ev.fenceSignalWait, Ev.closeFenceEvent, Ev.releaseTexture, Ev.releaseDevice]

/-- The event trace of the program after device/swap-chain creation:
the tail of `Initialize` followed by `frames` calls to `Render`. -/
def programTrace (frames : Nat) : List Ev :=
  setupTailEvents ++ (List.replicate frames renderEvents).flatten

/-- Number of command-list submissions not yet covered by a fence wait,
updated by one event: `ExecuteCommandLists` adds a submission,
`WaitForPreviousFrame` signals after all submitted work and blocks until
the fence reaches that value, so afterwards nothing is outstanding. -/
def pendingStep (o : Nat) (e : Ev) : Nat :=
  match e with
  | Ev.executeLists => o + 1
  | Ev.fenceSignalWait => 0
  | _ => o

/-- Outstanding submissions after a list of events, starting from `o`. -/
def pendingFrom (o : Nat) (l : List Ev) : Nat := l.foldl pendingStep o

/-- Outstanding submissions after a list of events (starting from none). -/
def pendingSubmissions (l : List Ev) : Nat := pendingFrom 0 l

/-- One step of the reset-safety checker: a reset of the allocator or the
list, and a new submission, are admissible only when no previous
submission is outstanding; a fence signal-and-wait clears the outstanding
count.  `none` marks a violation. -/
def resetSafeStep (o? : Option Nat) (e : Ev) : Option Nat :=
  match o? with
  | none => none
  | some o =>
    match e with
    | Ev.resetAllocator => if o = 0 then some o else none
    | Ev.resetList => if o = 0 then some o else none
    | Ev.executeLists => if o = 0 then some (o + 1) else none
    | Ev.fenceSignalWait => some 0
    | _ => some o

/-- Run the reset-safety checker over a list of events. -/
def runResetCheck (l : List Ev) (o : Nat) : Option Nat :=
  l.foldl resetSafeStep (some o)

theorem foldl_resetSafeStep_none (l : List Ev) :
    l.foldl resetSafeStep none = none := by
  induction l with
  | nil => rfl
  | cons e rest ih => simpa [resetSafeStep] using ih

theorem runResetCheck_append (xs ys : List Ev) (o : Nat) :
    runResetCheck (xs ++ ys) o = ys.foldl resetSafeStep (runResetCheck xs o) := by
  unfold runResetCheck
  exact List.foldl_append _ _ _ _

theorem runResetCheck_eq_pending (l : List Ev) :
    ∀ o o', runResetCheck l o = some o' → o' = pendingFrom o l := by
  induction l with
  | nil =>
    intro o o' h
    simp [runResetCheck] at h
    simp [pendingFrom, h]
  | cons e rest ih =>
    intro o o' h
    have hstep : runResetCheck (e :: rest) o = rest.foldl resetSafeStep (resetSafeStep (some o) e) := rfl
    rw [hstep] at h
    cases he : resetSafeStep (some o) e with
    | none =>
      rw [he, foldl_resetSafeStep_none] at h
      exact absurd h (by simp)
    | some o1 =>
      rw [he] at h
      have ho1 : o1 = pendingStep o e := by
        cases e <;> simp [resetSafeStep] at he <;> simp [pendingStep] <;> omega
      have : o' = pendingFrom o1 rest := ih o1 o' h
      rw [this, ho1]
      rfl

theorem runResetCheck_le_one (l : List Ev) :
    ∀ o o', o ≤ 1 → runResetCheck l o = some o' → o' ≤ 1 := by
  induction l with
  | nil =>
    intro o o' ho h
    simp [runResetCheck] at h
    omega
  | cons e rest ih =>
    intro o o' ho h
    have hstep : runResetCheck (e :: rest) o = rest.foldl resetSafeStep (resetSafeStep (some o) e) := rfl
    rw [hstep] at h
    cases he : resetSafeStep (some o) e with
    | none =>
      rw [he, foldl_resetSafeStep_none] at h
      exact absurd h (by simp)
    | some o1 =>
      rw [he] at h
      have ho1 : o1 ≤ 1 := by
        cases e <;> simp [resetSafeStep] at he <;> omega
      exact ih o1 o' ho1 h

theorem runResetCheck_renderEvents : runResetCheck renderEvents 0 = some 0 := by decide

theorem runResetCheck_loop (n : Nat) :
    runResetCheck ((List.replicate n renderEvents).flatten) 0 = some 0 := by
  induction n with
  | zero => rfl
  | succ k ih =>
    rw [List.replicate_succ, List.flatten_cons, runResetCheck_append,
      runResetCheck_renderEvents]
    exact ih

theorem runResetCheck_program (frames : Nat) :
    runResetCheck (programTrace frames) 0 = some 0 := by
  unfold programTrace
  rw [runResetCheck_append]
  have hsetup : runResetCheck setupTailEvents 0 = some 0 := by decide
  rw [hsetup]
  exact runResetCheck_loop frames

/-- C2: in every program trace (initialization tail followed by any number
of `Render` frames), whenever the shared command allocator or command list
is reset, every previously issued submission has already been covered by a
fence signal-and-wait (`pendingSubmissions pre = 0`); at every point of
the trace at most one submission is outstanding (frames-in-flight bounded
to 1); and `WaitForPreviousFrame` follows `ExecuteCommandList` both in
`EndScene` and in the tail of `Initialize`. -/
theorem context_reset_safety (frames : Nat) (pre post : List Ev) (e : Ev)
    (hsplit : programTrace frames = pre ++ e :: post)
    (hreset : e = Ev.resetAllocator ∨ e = Ev.resetList) :
    pendingSubmissions pre = 0 ∧
    (∀ k, pendingSubmissions (List.take k (programTrace frames)) ≤ 1) ∧
    endSceneEvents.findIdx (· == Ev.executeLists) <
      endSceneEvents.findIdx (· == Ev.fenceSignalWait) ∧
    setupTailEvents.findIdx (· == Ev.executeLists) <
      setupTailEvents.findIdx (· == Ev.fenceSignalWait) := by
  refine ⟨?_, ?_, by decide, by decide⟩
  · have hrun := runResetCheck_program frames
    rw [hsplit, runResetCheck_append] at hrun
    cases hc : runResetCheck pre 0 with
    | none =>
      rw [hc, foldl_resetSafeStep_none] at hrun
      exact absurd hrun (by simp)
    | some o1 =>
      rw [hc] at hrun
      have hstep : (e :: post).foldl resetSafeStep (some o1) =
          post.foldl resetSafeStep (resetSafeStep (some o1) e) := rfl
      rw [hstep] at hrun
      have ho1 : o1 = 0 := by
        cases he2 : resetSafeStep (some o1) e with
        | none =>
          rw [he2, foldl_resetSafeStep_none] at hrun
          exact absurd hrun (by simp)
        | some o2 =>
          rcases hreset with he | he <;> subst he <;>
            simp [resetSafeStep] at he2 <;> omega
      have := runResetCheck_eq_pending pre 0 o1 hc
      unfold pendingSubmissions
      omega
  · intro k
    have hrun := runResetCheck_program frames
    rw [← List.take_append_drop k (programTrace frames), runResetCheck_append] at hrun
    cases hc : runResetCheck (List.take k (programTrace frames)) 0 with
    | none =>
      rw [hc, foldl_resetSafeStep_none] at hrun
      exact absurd hrun (by simp)
    | some o1 =>
      have h1 := runResetCheck_le_one _ 0 o1 (by omega) hc
      have h2 := runResetCheck_eq_pending _ 0 o1 hc
      unfold pendingSubmissions
      omega

/-- Witness for claim C2: the first reset in a one-frame trace is preceded
only by the setup submission and its fence wait, with nothing outstanding. -/
theorem context_reset_safety_witness :
    pendingSubmissions setupTailEvents = 0 ∧
    pendingSubmissions (List.take 5 (programTrace 1)) ≤ 1 := by
  have h := context_reset_safety 1 setupTailEvents
    [Ev.resetList, Ev.setRootSignature, Ev.setViewport, Ev.setScissor,
     Ev.barrierToRT, Ev.omSetRenderTargets, Ev.clearRTV, Ev.setTopology,
     Ev.setDescTable, Ev.bindBuffers, Ev.draw, Ev.barrierToPresent,
     Ev.closeList, Ev.executeLists, Ev.present 0 0, Ev.fenceSignalWait,
     Ev.updateFrameIndex]
    Ev.resetAllocator (by decide) (Or.inl rfl)
  exact ⟨h.1, h.2.1 5⟩

/-- State of the presentation ring: the swap chain's current back-buffer
index (owned by the presentation engine) and the member `m_frameIndex`. -/
structure PresentState where
  swapIndex : Nat
  frameIndex : Nat
deriving DecidableEq

/-- `m_swapChain->GetCurrentBackBufferIndex()`. -/
def getCurrentBackBufferIndex (s : PresentState) : Nat := s.swapIndex

/-- Effect of `m_swapChain->Present` on the presentation engine, modelled
from the spec and the DXGI flip-model contract: the engine advances the
current back-buffer cursor cyclically over the `FRAME_BUFFERS` buffers;
the application never writes this cursor. -/
def presentFlip (s : PresentState) : PresentState :=
  { s with swapIndex := (s.swapIndex + 1) % FRAME_BUFFERS }

/-- The two steps of `D3D::EndScene` that touch the frame index
(D3D.cpp:126-131): `Present` flips the engine cursor, then
`m_frameIndex = m_swapChain->GetCurrentBackBufferIndex()`.  These are the
only two statements in the source that change `m_frameIndex` after its
creation-time assignment; it is never advanced by CPU-side arithmetic. -/
def endSceneFrameIndex (s : PresentState) : PresentState :=
  let s1 := presentFlip s
  { s1 with frameIndex := getCurrentBackBufferIndex s1 }

/-- Presentation state right after `D3D::CreateRenderTargetsAndFences`
(D3D.cpp:194): a freshly created flip-model swap chain starts at buffer 0
and `m_frameIndex = m_swapChain->GetCurrentBackBufferIndex()`. -/
def initialPresent : PresentState := { swapIndex := 0, frameIndex := 0 }

/-- Presentation state after `n` completed `EndScene` calls. -/
def presentStateAfter (n : Nat) : PresentState :=
  endSceneFrameIndex^[n] initialPresent

theorem presentStateAfter_closed (n : Nat) :
    presentStateAfter n = { swapIndex := n % 2, frameIndex := n % 2 } := by
  induction n with
  | zero => rfl
  | succ k ih =>
    unfold presentStateAfter at ih ⊢
    rw [Function.iterate_succ_apply', ih]
    unfold endSceneFrameIndex presentFlip getCurrentBackBufferIndex FRAME_BUFFERS
    simp only
    congr 1 <;> omega

/-- C3: in every reachable state of the frame orchestrator the current
frame index is in `[0, FRAME_BUFFERS)`; it always equals the presentation
engine's current back-buffer index (it is only ever assigned from
`GetCurrentBackBufferIndex`, at creation and after each present), and
since `FRAME_BUFFERS = 2 > 1` it differs between two consecutive
`Present` calls. -/
theorem frameIndex_invariant (n : Nat) :
    (presentStateAfter n).frameIndex < FRAME_BUFFERS ∧
    (presentStateAfter n).frameIndex =
      getCurrentBackBufferIndex (presentStateAfter n) ∧
    (presentStateAfter (n + 1)).frameIndex ≠ (presentStateAfter n).frameIndex := by
  rw [presentStateAfter_closed n, presentStateAfter_closed (n + 1)]
  unfold getCurrentBackBufferIndex FRAME_BUFFERS
  refine ⟨?_, rfl, ?_⟩
  · show n % 2 < 2
    omega
  · show (n + 1) % 2 ≠ n % 2
    omega

/-- Recorded CPU-side state tag of a back-buffer resource:
`D3D12_RESOURCE_STATE_PRESENT` or `D3D12_RESOURCE_STATE_RENDER_TARGET`. -/
inductive BufState where
  | presentable
  | renderTarget
deriving DecidableEq

/-- Recorded states of the two back buffers plus the current frame index
used to pick which buffer the barriers and draws target. -/
structure RecordState where
  buf0 : BufState
  buf1 : BufState
  idx : Nat
deriving DecidableEq

/-- The recorded state of `m_backBufferRenderTarget[m_frameIndex]`. -/
def getBuf (s : RecordState) : BufState := if s.idx = 0 then s.buf0 else s.buf1

/-- Update the recorded state of `m_backBufferRenderTarget[m_frameIndex]`. -/
def setBuf (s : RecordState) (b : BufState) : RecordState :=
  if s.idx = 0 then { s with buf0 := b } else { s with buf1 := b }

/-- One event of the frame trace acting on the recorded back-buffer
states.  The `PRESENT → RENDER_TARGET` barrier of `BeginScene`
(D3D.cpp:104-106) is valid only on a presentable buffer; the
`RENDER_TARGET → PRESENT` barrier of `EndScene` (D3D.cpp:121-123) only on
a render-target buffer; clears and draws target the render target, and
`Present` shows a buffer whose recorded state must be presentable.
`none` marks a state mismatch. -/
def recordStep (s? : Option RecordState) (e : Ev) : Option RecordState :=
  match s? with
  | none => none
  | some s =>
    match e with
    | Ev.barrierToRT =>
      if getBuf s = BufState.presentable then some (setBuf s BufState.renderTarget) else none
    | Ev.barrierToPresent =>
      if getBuf s = BufState.renderTarget then some (setBuf s BufState.presentable) else none
    | Ev.clearRTV => if getBuf s = BufState.renderTarget then some s else none
    | Ev.draw => if getBuf s = BufState.renderTarget then some s else none
    | Ev.present _ _ => if getBuf s = BufState.presentable then some s else none
    | Ev.updateFrameIndex => some { s with idx := (s.idx + 1) % FRAME_BUFFERS }
    | _ => some s

/-- Run the recorded-state tracker over a list of events. -/
def runRecord (l : List Ev) (s : RecordState) : Option RecordState :=
  l.foldl recordStep (some s)

/-- Back-buffer states at the start of the frame loop: swap-chain buffers
are created in the presentable state and the frame index starts at 0. -/
def initialRecord : RecordState :=
  { buf0 := BufState.presentable, buf1 := BufState.presentable, idx := 0 }

theorem foldl_recordStep_none (l : List Ev) :
    l.foldl recordStep none = none := by
  induction l with
  | nil => rfl
  | cons e rest ih => simpa [recordStep] using ih

theorem runRecord_append (xs ys : List Ev) (s : RecordState) :
    runRecord (xs ++ ys) s = ys.foldl recordStep (runRecord xs s) := by
  unfold runRecord
  exact List.foldl_append _ _ _ _

theorem runRecord_renderEvents_zero :
    runRecord renderEvents
      { buf0 := BufState.presentable, buf1 := BufState.presentable, idx := 0 } =
    some { buf0 := BufState.presentable, buf1 := BufState.presentable, idx := 1 } := by
  decide

theorem runRecord_renderEvents_one :
    runRecord renderEvents
      { buf0 := BufState.presentable, buf1 := BufState.presentable, idx := 1 } =
    some { buf0 := BufState.presentable, buf1 := BufState.presentable, idx := 0 } := by
  decide

theorem runRecord_loop (n : Nat) :
    ∀ i, i < 2 →
      runRecord ((List.replicate n renderEvents).flatten)
        { buf0 := BufState.presentable, buf1 := BufState.presentable, idx := i } =
      some { buf0 := BufState.presentable, buf1 := BufState.presentable, idx := (i + n) % 2 } := by
  induction n with
  | zero =>
    intro i hi
    have : (i + 0) % 2 = i := by omega
    rw [this]
    rfl
  | succ k ih =>
    intro i hi
    rw [List.replicate_succ, List.flatten_cons, runRecord_append]
    interval_cases i
    · rw [runRecord_renderEvents_zero]
      have h1 := ih 1 (by omega)
      unfold runRecord at h1
      rw [h1]
      congr 2
      omega
    · rw [runRecord_renderEvents_one]
      have h0 := ih 0 (by omega)
      unfold runRecord at h0
      rw [h0]
      congr 2
      omega

/-- C4: in every `Render` frame exactly one `PRESENT → RENDER_TARGET`
barrier is recorded before the clear and the draw, and exactly one
`RENDER_TARGET → PRESENT` barrier is recorded after the draw and before
the command list is closed and submitted; running the recorded-state
tracker over any program trace succeeds (so every `Present` sees the
presented buffer recorded as presentable) and leaves both buffers
presentable. -/
theorem barrier_discipline (frames : Nat) :
    renderEvents.count Ev.barrierToRT = 1 ∧
    renderEvents.count Ev.barrierToPresent = 1 ∧
    renderEvents.count Ev.clearRTV = 1 ∧
    renderEvents.count Ev.draw = 1 ∧
    renderEvents.findIdx (· == Ev.barrierToRT) <
      renderEvents.findIdx (· == Ev.clearRTV) ∧
    renderEvents.findIdx (· == Ev.barrierToRT) <
      renderEvents.findIdx (· == Ev.draw) ∧
    renderEvents.findIdx (· == Ev.draw) <
      renderEvents.findIdx (· == Ev.barrierToPresent) ∧
    renderEvents.findIdx (· == Ev.barrierToPresent) <
      renderEvents.findIdx (· == Ev.closeList) ∧
    runRecord (programTrace frames) initialRecord =
      some { buf0 := BufState.presentable, buf1 := BufState.presentable,
             idx := frames % 2 } := by
  refine ⟨by decide, by decide, by decide, by decide, by decide, by decide,
    by decide, by decide, ?_⟩
  unfold programTrace
  rw [runRecord_append]
  have hsetup : runRecord setupTailEvents initialRecord = some initialRecord := by decide
  rw [hsetup]
  have h := runRecord_loop frames 0 (by omega)
  unfold runRecord at h
  unfold initialRecord
  rw [h]
  congr 2
  omega

/-- Does an event present a frame (a `m_swapChain->Present` call)? -/
def isPresentEv : Ev → Bool
  | Ev.present _ _ => true
  | _ => false

/-- Does an event present with a non-immediate mode, i.e. with a sync
interval or flags other than the `Present(0, 0)` the source issues? -/
def isNonImmediatePresentEv : Ev → Bool
  | Ev.present si fl => !(si == 0 && fl == 0)
  | _ => false

theorem countP_present_loop (n : Nat) :
    ((List.replicate n renderEvents).flatten).countP isPresentEv = n := by
  induction n with
  | zero => rfl
  | succ k ih =>
    rw [List.replicate_succ, List.flatten_cons, List.countP_append, ih]
    have : renderEvents.countP isPresentEv = 1 := by decide
    omega

theorem countP_nonImmediate_loop (n : Nat) :
    ((List.replicate n renderEvents).flatten).countP isNonImmediatePresentEv = 0 := by
  induction n with
  | zero => rfl
  | succ k ih =>
    rw [List.replicate_succ, List.flatten_cons, List.countP_append, ih]
    have : renderEvents.countP isNonImmediatePresentEv = 0 := by decide
    omega

/-- C5: each `Render` call performs exactly one command-list submission
(one `Close` immediately followed by one `ExecuteCommandLists`) and
exactly one `Present`, the `Present` strictly follows the submission, and
every `Present` in any program trace is `Present(0, 0)` (sync interval 0,
immediate mode); a trace with `n` `Render` calls contains exactly `n`
presents. -/
theorem render_present_discipline (frames : Nat) :
    renderEvents.count Ev.closeList = 1 ∧
    renderEvents.count Ev.executeLists = 1 ∧
    renderEvents.countP isPresentEv = 1 ∧
    renderEvents.findIdx (· == Ev.closeList) <
      renderEvents.findIdx (· == Ev.executeLists) ∧
    renderEvents.findIdx (· == Ev.executeLists) <
      renderEvents.findIdx isPresentEv ∧
    (programTrace frames).countP isPresentEv = frames ∧
    (programTrace frames).countP isNonImmediatePresentEv = 0 := by
  refine ⟨by decide, by decide, by decide, by decide, by decide, ?_, ?_⟩
  · unfold programTrace
    rw [List.countP_append, countP_present_loop]
    have : setupTailEvents.countP isPresentEv = 0 := by decide
    omega
  · unfold programTrace
    rw [List.countP_append, countP_nonImmediate_loop]
    have : setupTailEvents.countP isNonImmediatePresentEv = 0 := by decide
    omega

/-- Deterministic environment seen by `D3D::FindAndCreateDevice`
(D3D.cpp:144-189): how many adapters `EnumAdapters1` enumerates before
failing, whether `D3D12CreateDevice(adapter i, FEATURE_LEVEL_12_1)`
succeeds, whether the fallback
`D3D12CreateDevice(null, FEATURE_LEVEL_11_1)` succeeds, and whether
`CreateDXGIFactory1` succeeds. -/
structure DeviceEnv where
  numAdapters : Nat
  supports121 : Nat → Bool
  fallback111Ok : Bool
  factoryOk : Bool

/-- The enumeration loop of `FindAndCreateDevice` (D3D.cpp:161-172),
starting at adapter index `i` with `remaining = numAdapters - i` adapters
left: `EnumAdapters1` fails once the list is exhausted (leaving a null
adapter), otherwise device creation at feature level 12.1 is attempted
and the loop breaks on the first success, returning that adapter index. -/
def adapterScan (env : DeviceEnv) : Nat → Nat → Option Nat
  | _, 0 => none
  | i, remaining + 1 =>
    if env.supports121 i then some i else adapterScan env (i + 1) remaining

/-- The full adapter loop, from index 0 over all enumerable adapters. -/
def adapterLoop (env : DeviceEnv) : Option Nat := adapterScan env 0 env.numAdapters

/-- Embedding of `D3D::FindAndCreateDevice` (D3D.cpp:144-189): fail if the
factory cannot be created; scan adapters for the first supporting feature
level 12.1 (the `if (adapter)` branch then re-creates the device on that
adapter, deterministically succeeding again); with a null adapter, fall
back to feature level 11.1 with no adapter preference. -/
def findAndCreateDevice (env : DeviceEnv) : Bool :=
  if env.factoryOk then
    match adapterLoop env with
    | some i => env.supports121 i
    | none => env.fallback111Ok
  else false

/-- Steps of `D3D::Initialize` (D3D.cpp:32-77) in statement order; the
Boolean carried by `findDevice` is the (discarded) return value of
`FindAndCreateDevice`. -/
inductive StartupStep where
  | findDevice (ok : Bool)
  | createCommandsAndSwapChain
  | createRenderTargetsAndFences
  | createViewportAndScissorRect
  | loadAssets
  | executeAndWait
deriving DecidableEq

/-- Embedding of the call sequence of `D3D::Initialize` (D3D.cpp:32-77).
The source ignores the Boolean returned by `FindAndCreateDevice` and
proceeds unconditionally with the remaining creation calls. -/
def startupTrace (env : DeviceEnv) : List StartupStep :=
  [StartupStep.findDevice (findAndCreateDevice env),
   StartupStep.createCommandsAndSwapChain,
   StartupStep.createRenderTargetsAndFences,
   StartupStep.createViewportAndScissorRect,
   StartupStep.loadAssets,
   StartupStep.executeAndWait]

/-- An environment in which no device can be created at any tier: no
adapter qualifies (the adapter list is empty) and the feature level 11.1
fallback fails too. -/
def noDeviceEnv : DeviceEnv :=
  { numAdapters := 0, supports121 := fun _ => false,
    fallback111Ok := false, factoryOk := true }

/-- C6 (code divergence): when device creation fails at every tier,
`FindAndCreateDevice` returns `false`, yet `Initialize` discards that
value and still proceeds to `CreateCommandsAndSwapChain` (command queue
and swap chain creation) and the subsequent creation calls, contrary to
the specified fatal abort with no partial side effects. -/
theorem startup_proceeds_after_device_failure :
    findAndCreateDevice noDeviceEnv = false ∧
    StartupStep.findDevice false ∈ startupTrace noDeviceEnv ∧
    StartupStep.createCommandsAndSwapChain ∈ startupTrace noDeviceEnv ∧
    StartupStep.createRenderTargetsAndFences ∈ startupTrace noDeviceEnv := by
  refine ⟨rfl, ?_, ?_, ?_⟩ <;> simp [startupTrace, findAndCreateDevice,
    adapterLoop, adapterScan, noDeviceEnv]

theorem adapterScan_eq_find (env : DeviceEnv) :
    ∀ remaining i,
      adapterScan env i remaining = (List.range' i remaining).find? env.supports121 := by
  intro remaining
  induction remaining with
  | zero => intro i; rfl
  | succ k ih =>
    intro i
    rw [List.range'_succ]
    unfold adapterScan
    cases h : env.supports121 i with
    | true => simp [List.find?, h]
    | false => simp [List.find?, h, ih (i + 1)]

theorem adapterLoop_eq_find (env : DeviceEnv) :
    adapterLoop env = (List.range env.numAdapters).find? env.supports121 := by
  unfold adapterLoop
  rw [adapterScan_eq_find, List.range_eq_range']

/-- C7: `FindAndCreateDevice` tries adapters in enumeration order and
selects the first adapter whose device creation at feature level 12.1
succeeds (`find?` over the enumeration order); if no adapter qualifies it
falls back to creating the device at feature level 11.1 with the null
adapter, and (given the factory was created) it returns `true` exactly
when some device was created at some tier. -/
theorem findAndCreateDevice_spec (env : DeviceEnv) (hf : env.factoryOk = true) :
    adapterLoop env = (List.range env.numAdapters).find? env.supports121 ∧
    (adapterLoop env = none → findAndCreateDevice env = env.fallback111Ok) ∧
    (findAndCreateDevice env = true ↔
      (∃ i, i < env.numAdapters ∧ env.supports121 i = true) ∨
        env.fallback111Ok = true) := by
  refine ⟨adapterLoop_eq_find env, ?_, ?_⟩
  · intro hnone
    unfold findAndCreateDevice
    rw [hf, if_pos rfl, hnone]
  · unfold findAndCreateDevice
    rw [hf, if_pos rfl]
    cases hloop : adapterLoop env with
    | none =>
      rw [adapterLoop_eq_find] at hloop
      have hall := List.find?_eq_none.mp hloop
      constructor
      · intro hfb
        exact Or.inr hfb
      · rintro (⟨i, hi, hs⟩ | hfb)
        · exact absurd hs (by simpa using hall i (List.mem_range.mpr hi))
        · exact hfb
    | some k =>
      rw [adapterLoop_eq_find] at hloop
      have hk : env.supports121 k = true := List.find?_some hloop
      have hmem : k ∈ List.range env.numAdapters := List.mem_of_find?_eq_some hloop
      constructor
      · intro _
        exact Or.inl ⟨k, List.mem_range.mp hmem, hk⟩
      · intro _
        exact hk

/-- Witness for claim C7: with one adapter supporting feature level 12.1
and a working factory, a device is created. -/
theorem findAndCreateDevice_spec_witness :
    findAndCreateDevice
      { numAdapters := 1, supports121 := fun _ => true,
        fallback111Ok := false, factoryOk := true } = true :=
  (findAndCreateDevice_spec
      { numAdapters := 1, supports121 := fun _ => true,
        fallback111Ok := false, factoryOk := true } rfl).2.2.mpr
    (Or.inl ⟨0, by decide, rfl⟩)

/-- C8: `ShutDown` performs exactly one full fence signal-and-wait, as its
first action and before the fence-event handle is closed and before any
resource release (texture, device); and after any `WaitForPreviousFrame`
returns, the fence's completed value has reached the value signalled in
that call (`m_fenceValue` at entry), so no release happens before the
completed value reaches the last signalled value. -/
theorem shutdown_wait_before_release :
    shutDownEvents.count Ev.fenceSignalWait = 1 ∧
    shutDownEvents.findIdx (· == Ev.fenceSignalWait) = 0 ∧
    shutDownEvents.findIdx (· == Ev.fenceSignalWait) <
      shutDownEvents.findIdx (· == Ev.closeFenceEvent) ∧
    shutDownEvents.findIdx (· == Ev.fenceSignalWait) <
      shutDownEvents.findIdx (· == Ev.releaseTexture) ∧
    shutDownEvents.findIdx (· == Ev.fenceSignalWait) <
      shutDownEvents.findIdx (· == Ev.releaseDevice) ∧
    ∀ s : FenceState, (waitForPreviousFrame s).completed ≥ s.fenceValue := by
  refine ⟨by decide, by decide, by decide, by decide, by decide, ?_⟩
  intro s
  unfold waitForPreviousFrame
  by_cases h : s.completed < s.fenceValue
  · rw [if_pos h]
  · rw [if_neg h]
    exact Nat.le_of_not_lt h

/-- Modelled from the spec: the `ShaderType` bit-flag constants (the
`Shader.hpp` header defining the enum is not among the sources; the spec
describes a tagged shader-kind enum with bitwise combination, vertex or
pixel or geometry or compute, combined with bitwise or).  Any assignment
of distinct bits gives the same equality facts the code branches on. -/
def VS : Nat := 1

/-- Modelled from the spec: pixel-shader bit of `ShaderType`. -/
def PS : Nat := 2

/-- Modelled from the spec: geometry-shader bit of `ShaderType`. -/
def GS : Nat := 4

/-- Modelled from the spec: compute-shader bit of `ShaderType`. -/
def CS : Nat := 8

/-- Size of the `blobs` vector produced by `Shader::LoadShadersFromFile`
for a given shader type (the `resize` calls in the two compile branches;
any other type leaves the vector empty). -/
def blobsSize (t : Nat) : Nat :=
  if t = (VS ||| PS) then 2 else if t = CS then 1 else 0

/-- Number of `D3DCompileFromFile` calls made by
`Shader::LoadShadersFromFile` for a given shader type: two for `VS | PS`,
one for `CS`, none otherwise. -/
def compileCalls (t : Nat) : Nat :=
  if t = (VS ||| PS) then 2 else if t = CS then 1 else 0

/-- Blob indices read by `Shader::CreateInputLayoutAndPipelineState` on
the entry found for the given id: `blobs[0]` (VS) and `blobs[1]` (PS)
unconditionally, and `blobs[2]` (GS) when the entry's type equals
`VS | GS | PS`. -/
def pipelineBlobIndices (t : Nat) : List Nat :=
  [0, 1] ++ (if t = (VS ||| GS ||| PS) then [2] else [])

/-- Are all blob accesses of `CreateInputLayoutAndPipelineState` within
the bounds of the `blobs` vector built by `LoadShadersFromFile`? -/
def inBoundsAccess (t : Nat) : Bool :=
  (pipelineBlobIndices t).all (fun i => i < blobsSize t)

/-- C9: for every shader entry created by `LoadShadersFromFile` the blobs
vector has at most 2 elements (2 for `VS | PS`, 1 for `CS`); hence when
`CreateInputLayoutAndPipelineState` takes the branch for type
`VS | GS | PS` it reads `blobs[2]` out of bounds, and in-bounds access
requires the looked-up entry's type not to be `VS | GS | PS`. -/
theorem shader_blob_bounds (t : Nat) :
    blobsSize t ≤ 2 ∧
    blobsSize (VS ||| PS) = 2 ∧
    blobsSize CS = 1 ∧
    (t = (VS ||| GS ||| PS) → inBoundsAccess t = false) ∧
    (inBoundsAccess t = true → t ≠ (VS ||| GS ||| PS)) := by
  refine ⟨?_, by decide, by decide, ?_, ?_⟩
  · unfold blobsSize
    split_ifs <;> omega
  · intro ht
    subst ht
    decide
  · intro hb ht
    subst ht
    rw [show inBoundsAccess (VS ||| GS ||| PS) = false by decide] at hb
    exact absurd hb (by decide)

/-- Witness for claim C9: at type `VS | GS | PS` (= 7 with the modelled
bits) the blob accesses of the pipeline-state branch are out of bounds. -/
theorem shader_blob_bounds_witness : inBoundsAccess 7 = false :=
  (shader_blob_bounds 7).2.2.2.1 (by decide)

/-- A shader-map entry as built by `Shader::LoadShadersFromFile`: the
stored type tag and the size of its compiled-blob vector. -/
structure ShaderData where
  type : Nat
  blobCount : Nat
deriving DecidableEq

/-- Does the shader map already hold an entry for this id?
(`std::map::insert` refuses to overwrite an existing key.) -/
def mapContains (m : List (Nat × ShaderData)) (id : Nat) : Bool :=
  m.any (fun p => p.1 == id)

/-- Embedding of `Shader::LoadShadersFromFile` (Shader implementation in
`D3D.hpp`, lines 103-123): build a `ShaderData` whose blob vector is sized
and filled by the branch on the type (`VS | PS`: two compiles, `CS`: one
compile, anything else: no compile and an empty vector), then
`m_shaders.insert` it; the second component is `inserted.second`, which
the source asserts to be `true`. -/
def loadShadersFromFile (m : List (Nat × ShaderData)) (id t : Nat) :
    List (Nat × ShaderData) × Bool :=
  let data : ShaderData := { type := t, blobCount := blobsSize t }
  if mapContains m id then (m, false) else (m ++ [(id, data)], true)

/-- C10: calling `LoadShadersFromFile` with a type that is neither
`VS | PS` nor `CS` performs no compilation yet still inserts an entry with
an empty blob vector under the given id (the insertion succeeds on a
fresh id), and a second call with the same id — whatever its type — fails
the insertion assertion (`inserted.second` is `false`), keeping exactly
one entry per id. -/
theorem load_shader_unknown_type (m : List (Nat × ShaderData)) (id t t2 : Nat)
    (ht1 : t ≠ (VS ||| PS)) (ht2 : t ≠ CS)
    (hfresh : mapContains m id = false) :
    compileCalls t = 0 ∧
    (loadShadersFromFile m id t).1 = m ++ [(id, { type := t, blobCount := 0 })] ∧
    (loadShadersFromFile m id t).2 = true ∧
    (loadShadersFromFile (loadShadersFromFile m id t).1 id t2).2 = false := by
  have hsize : blobsSize t = 0 := by
    unfold blobsSize
    rw [if_neg ht1, if_neg ht2]
  have hcalls : compileCalls t = 0 := by
    unfold compileCalls
    rw [if_neg ht1, if_neg ht2]
  have hfirst : loadShadersFromFile m id t =
      (m ++ [(id, { type := t, blobCount := 0 })], true) := by
    unfold loadShadersFromFile
    rw [hfresh]
    simp [hsize]
  have hsecond : mapContains (m ++ [(id, { type := t, blobCount := 0 })]) id = true := by
    unfold mapContains
    rw [List.any_append]
    simp
  refine ⟨hcalls, by rw [hfirst], by rw [hfirst], ?_⟩
  rw [hfirst]
  unfold loadShadersFromFile
  rw [hsecond]
  simp

/-- Witness for claim C10: loading a geometry-only shader type (= 4 with
the modelled bits) into an empty map compiles nothing, inserts an
empty-blob entry, and a repeated load under the same id fails the
insertion assertion. -/
theorem load_shader_unknown_type_witness :
    compileCalls 4 = 0 ∧
    (loadShadersFromFile [] 0 4).1 = [(0, { type := 4, blobCount := 0 })] ∧
    (loadShadersFromFile [] 0 4).2 = true ∧
    (loadShadersFromFile (loadShadersFromFile [] 0 4).1 0 4).2 = false :=
  load_shader_unknown_type [] 0 4 4 (by decide) (by decide) (by decide)

end DX12
